import Mathlib

/-!
Verification development for the quickjs_es_runtime core slice: the
builder-accumulated configuration, the null/undefined value utilities,
the serialized job queue of the worker thread, the module-resolution
protocol, the reflection proxy layer, the value facade marshaling and
the fetch bridge.  Definitions are shallow embeddings of the Rust
source under src/; components whose source is outside the excerpt are
modelled from the specification and marked as such in doc comments.
-/

namespace QjsSpec

/-! ## Value tags and the null/undefined utilities (quickjs_utils/mod.rs) -/

/-- Modelled from the spec: the tag constants live in quickjsruntime.rs,
which is outside the excerpt; the engine convention assigns distinct tags
to null and undefined (quickjs uses 2 and 3). -/
def TAG_NULL : Int := 2

/-- Modelled from the spec: companion tag for undefined, distinct from
TAG_NULL. -/
def TAG_UNDEFINED : Int := 3

/-- The raw engine value: a 32-bit payload and a tag
(quickjs_utils/mod.rs builds these with int32 and tag fields). -/
structure JSValue where
  int32 : Int
  tag : Int
deriving DecidableEq, Repr

/-- Owned reference to a raw engine value. -/
structure OwnedValueRef where
  value : JSValue
deriving DecidableEq, Repr

/-- new_undefined from quickjs_utils/mod.rs. -/
def new_undefined : OwnedValueRef :=
  OwnedValueRef.mk (JSValue.mk 0 TAG_UNDEFINED)

/-- new_null from quickjs_utils/mod.rs. -/
def new_null : OwnedValueRef :=
  OwnedValueRef.mk (JSValue.mk 0 TAG_NULL)

/-- is_null from quickjs_utils/mod.rs. -/
def is_null (value_ref : OwnedValueRef) : Bool :=
  value_ref.value.tag == TAG_NULL

/-- is_undefined from quickjs_utils/mod.rs. -/
def is_undefined (value_ref : OwnedValueRef) : Bool :=
  value_ref.value.tag == TAG_UNDEFINED

/-- is_null_or_undefined from quickjs_utils/mod.rs. -/
def is_null_or_undefined (value_ref : OwnedValueRef) : Bool :=
  is_null value_ref || is_undefined value_ref

/-! ## Error taxonomy (spec section 7) -/

/-- Modelled from the spec: the error taxonomy of section 7; the error
types themselves live outside the excerpt (eserror.rs is not in src/). -/
inductive JsError where
  | ModuleNotFound
  | RealmMismatch
  | FeatureUnavailable
  | StackOverflow
  | OutOfMemory
  | Timeout
  | WorkerPanicked
  | scriptException (msg : String)
  | TypeError (msg : String)
deriving DecidableEq, Repr

/-! ## Value facade marshaling (spec sections 3 and 4.3) -/

/-- A primitive script value: boolean, number, string, or the
null/undefined tag (spec section 3, Value Facade).  Numbers are modelled
as integers, matching the from_i32 conversions used throughout the
excerpt. -/
inductive JsPrimitive where
  | pBool (b : Bool)
  | pNum (n : Int)
  | pStr (s : String)
  | pNull
  | pUndefined
deriving DecidableEq, Repr

/-- Modelled from the spec: a worker-side value is either a primitive or
an engine-heap object identified by a heap reference, tagged with the
realm it belongs to (esvalue.rs / valueref.rs are not in src/). -/
inductive WorkerValue where
  | prim (p : JsPrimitive)
  | obj (heapRef : Nat) (realm : Nat)
deriving DecidableEq, Repr

/-- Modelled from the spec: a Value Facade is a self-contained copy of a
primitive, or a reference-counted handle into the engine heap tagged
with its realm (spec section 4.3). -/
inductive ValueFacade where
  | prim (p : JsPrimitive)
  | handle (heapRef : Nat) (realm : Nat)
deriving DecidableEq, Repr

/-- Modelled from the spec: conversion worker-side-value to facade;
primitives are copied, objects become a realm-tagged handle. -/
def to_facade : WorkerValue → ValueFacade
  | WorkerValue.prim p => ValueFacade.prim p
  | WorkerValue.obj h r => ValueFacade.handle h r

/-- Modelled from the spec: conversion facade to worker-side-value;
primitives are reconstructed directly, handles are dereferenced only
when their realm matches the target realm, otherwise RealmMismatch. -/
def facade_to_worker (currentRealm : Nat) : ValueFacade → Except JsError WorkerValue
  | ValueFacade.prim p => Except.ok (WorkerValue.prim p)
  | ValueFacade.handle h r =>
      if r = currentRealm then Except.ok (WorkerValue.obj h r)
      else Except.error JsError.RealmMismatch

/-! ## Scripts, fetch interface types and loaders (esruntimebuilder.rs) -/

/-- Modelled from the spec: a Module Descriptor, the (absolute-name,
source-text) pair produced by a script loader (esscript.rs is not in
src/). -/
structure EsScript where
  absolute_path : String
  code : String
deriving DecidableEq, Repr

/-- Modelled from the spec: a fetch Request; the doc-test only uses the
url, so the model carries the url (request.rs is not in src/). -/
structure FetchRequest where
  url : String
deriving DecidableEq, Repr

/-- Modelled from the spec: the FetchResponse capability set
get_http_status, get_header, read.  The mutable pull-style reader
read(&mut self) -> Option<Vec<u8>> is modelled by the sequence of its
successive results: read_at n is what the n-th read call returns, with
chunks modelled as strings (the doc-test body is UTF-8 text). -/
structure FetchResponseModel where
  get_http_status : Nat
  get_header : String → Option String
  read_at : Nat → Option String

/-- ModuleScriptLoader as constrained in esruntimebuilder.rs: a function
from (base, name) to an optional script (the QuickJsContext argument
carries no data used by the resolution protocol and is elided). -/
def ModuleScriptLoader : Type := String → String → Option EsScript

/-- A native callback with the uniform calling convention of spec
section 9: arguments in, a facade-level value or typed error out. -/
def NativeCallback : Type := List JsPrimitive → Except JsError JsPrimitive

/-- Modelled from the spec: a Proxy Definition, the builder-accumulated
description of a host-backed class with its named static methods
(reflection.rs is not in src/). -/
structure ProxyDef where
  name : String
  static_methods : List (String × NativeCallback)

/-- A value exported by a native module: a plain value, a host function,
or an installed proxy class (spec section 4.4). -/
inductive ExportVal where
  | val (v : JsPrimitive)
  | func (f : NativeCallback)
  | cls (p : ProxyDef)

/-- NativeModuleLoader capability set from quickjsruntime.rs as used by
esruntimebuilder.rs: has_module, get_module_export_names,
get_module_exports. -/
structure NativeModuleLoader where
  has_module : String → Bool
  get_module_export_names : String → List String
  get_module_exports : String → List (String × ExportVal)

/-- FetchResponseProvider as constrained in esruntimebuilder.rs: a
function from a request to a response object. -/
def FetchResponseProvider : Type := FetchRequest → FetchResponseModel

/-- Duration stands in for std::time::Duration, in nanoseconds. -/
def Duration : Type := Nat

/-! ## The builder (esruntimebuilder.rs) -/

/-- EsRuntimeBuilder from esruntimebuilder.rs: seven optional fields,
all initially None. -/
structure EsRuntimeBuilder where
  opt_module_script_loader : Option ModuleScriptLoader
  opt_native_module_loader : Option NativeModuleLoader
  opt_fetch_response_provider : Option FetchResponseProvider
  opt_memory_limit_bytes : Option Nat
  opt_gc_threshold : Option Nat
  opt_max_stack_size : Option Nat
  opt_gc_interval : Option Duration

namespace EsRuntimeBuilder

/-- EsRuntimeBuilder::new: every field starts as None. -/
def new : EsRuntimeBuilder where
  opt_module_script_loader := none
  opt_native_module_loader := none
  opt_fetch_response_provider := none
  opt_memory_limit_bytes := none
  opt_gc_threshold := none
  opt_max_stack_size := none
  opt_gc_interval := none

/-- module_script_loader setter. -/
def module_script_loader (self : EsRuntimeBuilder) (loader : ModuleScriptLoader) : EsRuntimeBuilder :=
  { self with opt_module_script_loader := some loader }

/-- native_module_loader setter. -/
def native_module_loader (self : EsRuntimeBuilder) (loader : NativeModuleLoader) : EsRuntimeBuilder :=
  { self with opt_native_module_loader := some loader }

/-- fetch_response_provider setter. -/
def fetch_response_provider (self : EsRuntimeBuilder) (provider : FetchResponseProvider) : EsRuntimeBuilder :=
  { self with opt_fetch_response_provider := some provider }

/-- memory_limit setter. -/
def memory_limit (self : EsRuntimeBuilder) (bytes : Nat) : EsRuntimeBuilder :=
  { self with opt_memory_limit_bytes := some bytes }

/-- gc_threshold setter. -/
def gc_threshold (self : EsRuntimeBuilder) (size : Nat) : EsRuntimeBuilder :=
  { self with opt_gc_threshold := some size }

/-- max_stack_size setter. -/
def max_stack_size (self : EsRuntimeBuilder) (size : Nat) : EsRuntimeBuilder :=
  { self with opt_max_stack_size := some size }

/-- gc_interval setter. -/
def gc_interval (self : EsRuntimeBuilder) (interval : Duration) : EsRuntimeBuilder :=
  { self with opt_gc_interval := some interval }

end EsRuntimeBuilder

/-! ## Module resolution and the reflection layer (spec section 4.4) -/

/-- The outcome of resolving an import: either a synthetic native
module with its export set, or a source module descriptor to compile. -/
inductive ResolvedModule where
  | native (exports : List (String × ExportVal))
  | source (script : EsScript)

/-- Modelled from the spec: the module resolution protocol of section
4.4, executed on the worker thread during import.  If a native module
loader claims the name, a synthetic module with the declared exports is
installed; otherwise the module script loader is invoked with
(base, name); returning None fails compilation with ModuleNotFound. -/
def resolve_module (onl : Option NativeModuleLoader) (osl : Option ModuleScriptLoader)
    (base name : String) : Except JsError ResolvedModule :=
  match onl with
  | some nl =>
      if nl.has_module name then
        Except.ok (ResolvedModule.native (nl.get_module_exports name))
      else
        match osl with
        | some sl =>
            match sl base name with
            | some script => Except.ok (ResolvedModule.source script)
            | none => Except.error JsError.ModuleNotFound
        | none => Except.error JsError.ModuleNotFound
  | none =>
      match osl with
      | some sl =>
          match sl base name with
          | some script => Except.ok (ResolvedModule.source script)
          | none => Except.error JsError.ModuleNotFound
      | none => Except.error JsError.ModuleNotFound

/-- Look up a static method of a proxy class by name and invoke its
native callback on the given arguments (spec section 4.4, proxy
installation: static methods are a name-keyed callback table). -/
def ProxyDef.callStatic (p : ProxyDef) (method : String) (args : List JsPrimitive) :
    Except JsError JsPrimitive :=
  match p.static_methods.lookup method with
  | some cb => cb args
  | none => Except.error (JsError.TypeError (method ++ " is not a function"))

/-- Modelled from the spec: a realm keeps the proxy classes installed
into its global scope; install registers a class (the most recently
installed class of a given name shadows earlier ones). -/
structure Realm where
  proxies : List ProxyDef

/-- The empty realm. -/
def Realm.empty : Realm := Realm.mk []

/-- Proxy::install into a realm (spec section 4.4). -/
def Realm.install (r : Realm) (p : ProxyDef) : Realm :=
  Realm.mk (p :: r.proxies)

/-- Script-side static method call ClassName.method(args) dispatched
through the realm's installed proxies. -/
def Realm.callStatic (r : Realm) (cls method : String) (args : List JsPrimitive) :
    Except JsError JsPrimitive :=
  match r.proxies.find? (fun p => p.name == cls) with
  | some p => p.callStatic method args
  | none => Except.error (JsError.TypeError (cls ++ " is not defined"))

/-! ## A small expression language for the module doc-test

The doc-test of native_module_loader evaluates the module body
someVal + someFunc() + SomeClass.doIt() against the imported export
set.  The engine itself is out of scope (spec section 1); the fragment
of evaluation the test exercises is modelled from the spec: variable
reference into the import environment, zero-argument call of an
imported function, static method call on an imported class, and
numeric addition. -/

inductive JsExpr where
  | lit (n : Int)
  | evar (x : String)
  | callVar (f : String)
  | staticCall (cls method : String)
  | add (a b : JsExpr)

/-- Evaluate an expression against a module import environment.
Addition is numeric (the doc-test only adds numbers); referencing a
missing import or calling a non-function is a TypeError. -/
def evalExpr (env : List (String × ExportVal)) : JsExpr → Except JsError JsPrimitive
  | JsExpr.lit n => Except.ok (JsPrimitive.pNum n)
  | JsExpr.evar x =>
      match env.lookup x with
      | some (ExportVal.val v) => Except.ok v
      | some _ => Except.error (JsError.TypeError (x ++ " is not a plain value"))
      | none => Except.error (JsError.TypeError (x ++ " is not defined"))
  | JsExpr.callVar f =>
      match env.lookup f with
      | some (ExportVal.func cb) => cb []
      | some _ => Except.error (JsError.TypeError (f ++ " is not a function"))
      | none => Except.error (JsError.TypeError (f ++ " is not defined"))
  | JsExpr.staticCall cls method =>
      match env.lookup cls with
      | some (ExportVal.cls p) => p.callStatic method args0
      | some _ => Except.error (JsError.TypeError (cls ++ " is not a class"))
      | none => Except.error (JsError.TypeError (cls ++ " is not defined"))
  | JsExpr.add a b =>
      match evalExpr env a, evalExpr env b with
      | Except.ok (JsPrimitive.pNum x), Except.ok (JsPrimitive.pNum y) =>
          Except.ok (JsPrimitive.pNum (x + y))
      | Except.error e, _ => Except.error e
      | _, Except.error e => Except.error e
      | _, _ => Except.error (JsError.TypeError "not numbers")
where args0 : List JsPrimitive := []

/-! ## The doc-test native module loader (esruntimebuilder.rs lines 87 to 122) -/

/-- The doIt static callback of SomeClass: returns 185. -/
def doItCallback : NativeCallback := fun _args => Except.ok (JsPrimitive.pNum 185)

/-- The someFunc export: returns 432. -/
def someFuncCallback : NativeCallback := fun _args => Except.ok (JsPrimitive.pNum 432)

/-- SomeClass from the doc-test: a proxy class with static method doIt. -/
def someClassProxy : ProxyDef where
  name := "SomeClass"
  static_methods := [("doIt", doItCallback)]

/-- MyModuleLoader from the doc-test of native_module_loader: claims
exactly the module name my_module and exports someVal = 1470, someFunc
returning 432 and the class SomeClass. -/
def myModuleLoader : NativeModuleLoader where
  has_module := fun module_name => module_name == "my_module"
  get_module_export_names := fun _ => ["someVal", "someFunc", "SomeClass"]
  get_module_exports := fun _ =>
    [("someVal", ExportVal.val (JsPrimitive.pNum 1470)),
     ("someFunc", ExportVal.func someFuncCallback),
     ("SomeClass", ExportVal.cls someClassProxy)]

/-- The module body of the doc-test: someVal + someFunc() + SomeClass.doIt(). -/
def testModuleBody : JsExpr :=
  JsExpr.add (JsExpr.add (JsExpr.evar "someVal") (JsExpr.callVar "someFunc"))
    (JsExpr.staticCall "SomeClass" "doIt")

/-- Run the doc-test module: resolve the import of my_module through the
builder configuration (native loader set, no script loader) and evaluate
the body against the resulting export set. -/
def runTestModule : Except JsError JsPrimitive :=
  let b := EsRuntimeBuilder.new.native_module_loader myModuleLoader
  match resolve_module b.opt_native_module_loader b.opt_module_script_loader
      "test_native_mod.es" "my_module" with
  | Except.ok (ResolvedModule.native exports) => evalExpr exports testModuleBody
  | Except.ok (ResolvedModule.source _) =>
      Except.error (JsError.TypeError "expected a native module")
  | Except.error e => Except.error e

/-! ## Fetch bridge (spec section 4.5) -/

/-- Modelled from the spec: the worker schedules repeated read() polls;
successive Some(bytes) chunks are buffered and None signals end of
body.  Reads are issued in call order starting at index i; fuel bounds
the polling loop (the provider contract does not itself guarantee
termination), and exhausting it leaves the body unterminated (none). -/
def drainBody (resp : FetchResponseModel) : Nat → Nat → Option String
  | 0, _ => none
  | fuel + 1, i =>
      match resp.read_at i with
      | none => some ""
      | some chunk => Option.map (fun rest => chunk ++ rest) (drainBody resp fuel (i + 1))

/-- The Response-like script object the promise resolves with: status,
headers, and body-consumption methods replaying the buffered bytes
(text() returns the buffered body). -/
structure JsFetchResponse where
  status : Nat
  get_header : String → Option String
  text : String

/-- Modelled from the spec: script-initiated fetch under a builder
configuration.  With no provider configured, fetch is unavailable and
fails with FeatureUnavailable; with a provider, the worker obtains the
response, polls read() to end of body within the given fuel, and the
promise resolves with the buffered Response-like object. -/
def scriptFetch (b : EsRuntimeBuilder) (fuel : Nat) (req : FetchRequest) :
    Except JsError JsFetchResponse :=
  match b.opt_fetch_response_provider with
  | none => Except.error JsError.FeatureUnavailable
  | some provider =>
      let resp := provider req
      match drainBody resp fuel 0 with
      | none => Except.error (JsError.TypeError "body did not terminate")
      | some body =>
          Except.ok (JsFetchResponse.mk resp.get_http_status resp.get_header body)

/-- SimpleResponse from the doc-test of fetch_response_provider: status
200, read() yields Some of the bytes of Hello world on the first call
and None afterwards (read_done flips after the first read). -/
def simpleResponse : FetchResponseModel where
  get_http_status := 200
  get_header := fun _ => none
  read_at := fun n => if n = 0 then some "Hello world" else none

/-- The provider of the doc-test: every request gets a fresh
SimpleResponse. -/
def simpleProvider : FetchResponseProvider := fun _req => simpleResponse

/-! ## Job queue and worker runtime core (spec sections 3, 4.2 and 5) -/

/-- Modelled from the spec: a microtask (promise reaction) scheduled
during a job; running a microtask may schedule further microtasks,
which join the back of the microtask queue (the tree is finite: the
drain of a job reaches quiescence). -/
inductive Micro where
  | node (tag : Nat) (children : List Micro)

mutual

/-- Size of a microtask tree, for termination of the drain loop. -/
def Micro.size : Micro → Nat
  | Micro.node _ cs => 1 + microsSize cs

/-- Total size of a microtask queue. -/
def microsSize : List Micro → Nat
  | [] => 0
  | c :: cs => Micro.size c + microsSize cs

end

/-- Modelled from the spec: a Job is a unit of work identified by its
enqueue order, together with the microtasks its execution schedules
(spec section 3: jobs are totally ordered by enqueue time). -/
structure Job where
  id : Nat
  micros : List Micro

/-- Observable events of the worker thread: a job starting, a microtask
(promise reaction) running on behalf of a job, and a job completing
after its promise drain. -/
inductive Event where
  | jobStart (id : Nat)
  | microRun (id : Nat) (tag : Nat)
  | jobEnd (id : Nat)
deriving DecidableEq, Repr

/-- Modelled from the spec: drain the microtask queue to quiescence in
FIFO order; a microtask that schedules children appends them to the
back of the queue.  Events are tagged with the id of the job being
drained. -/
def drainMicros (id : Nat) : List Micro → List Event
  | [] => []
  | Micro.node t cs :: rest => Event.microRun id t :: drainMicros id (rest ++ cs)
termination_by q => microsSize q
decreasing_by
  have h : ∀ (a b : List Micro), microsSize (a ++ b) = microsSize a + microsSize b := by
    intro a b
    induction a with
    | nil => simp [microsSize]
    | cons c cs ih => simp [microsSize, ih, Nat.add_assoc]
  simp [h, microsSize, Micro.size]
  omega

/-- Modelled from the spec: executing one job on the worker thread —
the job starts, its microtask/promise queue is drained to quiescence,
and only then does the job complete (spec section 4.2). -/
def jobBlock (j : Job) : List Event :=
  Event.jobStart j.id :: (drainMicros j.id j.micros ++ [Event.jobEnd j.id])

/-- Modelled from the spec: the worker thread loop over the serialized
job queue — pop the next job, execute it, drain its promise queue, then
pick up the next job, strictly FIFO, one at a time (spec section 4.2).
The queue list is the enqueue order: concurrent callers serialize at
the atomic enqueue (spec section 4.1). -/
def workerRun (queue : List Job) : List Event :=
  match queue with
  | [] => []
  | j :: rest => jobBlock j ++ workerRun rest

/-! ## The runtime facade (spec sections 3 and 4.1) -/

/-- Modelled from the spec: the runtime handle returned by build; it
holds the configuration consumed from the builder and the job queue of
pending work (esruntime.rs is not in src/). -/
structure EsRuntime where
  config : EsRuntimeBuilder
  jobQueue : List Job

/-- EsRuntime::new consumes the builder: the configuration is exactly
the builder fields, the queue starts empty. -/
def EsRuntime.new (builder : EsRuntimeBuilder) : EsRuntime :=
  EsRuntime.mk builder []

/-- EsRuntimeBuilder::build from esruntimebuilder.rs: build(self)
consumes the builder by value and hands it to EsRuntime::new. -/
def EsRuntimeBuilder.build (self : EsRuntimeBuilder) : EsRuntime :=
  EsRuntime.new self

/-- Modelled from the spec: submitting a job enqueues it at the back of
the job queue; the configuration is untouched. -/
def EsRuntime.submit (rt : EsRuntime) (j : Job) : EsRuntime :=
  EsRuntime.mk rt.config (rt.jobQueue ++ [j])

/-- Modelled from the spec: the worker pops and executes the front job;
the configuration is untouched. -/
def EsRuntime.runNextJob (rt : EsRuntime) : EsRuntime × List Event :=
  match rt.jobQueue with
  | [] => (rt, [])
  | j :: rest => (EsRuntime.mk rt.config rest, jobBlock j)

/-! ## Theorems for the claims -/

/-- The worker trace of a concatenation of queues is the concatenation
of the traces: the worker handles the queue strictly in order. -/
theorem workerRun_append (a b : List Job) :
    workerRun (a ++ b) = workerRun a ++ workerRun b := by
  induction a with
  | nil => simp [workerRun]
  | cons j rest ih => simp [workerRun, ih]

/-- Claim C1: for every two jobs J1 and J2 in the serialized queue (the
queue order is the enqueue order, the single serialization point for
all caller threads), if J1 is enqueued before J2 then the worker trace
contains the whole block of J1 — its start, the drain of its
promise/microtask queue to quiescence, and its completion — strictly
before the start of J2. -/
theorem jobs_complete_in_submission_order (pre mid post : List Job) (j1 j2 : Job) :
    workerRun (pre ++ j1 :: (mid ++ j2 :: post)) =
      workerRun pre ++
        ((Event.jobStart j1.id ::
            (drainMicros j1.id j1.micros ++ [Event.jobEnd j1.id])) ++
          (workerRun mid ++
            ((Event.jobStart j2.id ::
                (drainMicros j2.id j2.micros ++ [Event.jobEnd j2.id])) ++
              workerRun post))) := by
  have h1 : workerRun (j1 :: (mid ++ j2 :: post)) =
      jobBlock j1 ++ workerRun (mid ++ j2 :: post) := rfl
  have h2 : workerRun (j2 :: post) = jobBlock j2 ++ workerRun post := rfl
  simp [workerRun_append, h1, h2, jobBlock]

/-- Claim C2: the doc-test native module — exports someVal = 1470,
someFunc() returning 432, proxy class SomeClass with static doIt()
returning 185 — imported and summed evaluates to exactly 2087 with no
error. -/
theorem native_module_import_sums_to_2087 :
    runTestModule = Except.ok (JsPrimitive.pNum 2087) := rfl

/-- Claim C3: when no native module loader claims the requested name
(in particular for an undeclared native module) and the module script
loader, if any, returns None for (base, name), module resolution fails
with ModuleNotFound. -/
theorem unresolved_import_module_not_found (onl : Option NativeModuleLoader)
    (osl : Option ModuleScriptLoader) (base name : String)
    (hn : ∀ nl, onl = some nl → nl.has_module name = false)
    (hs : ∀ sl, osl = some sl → sl base name = none) :
    resolve_module onl osl base name = Except.error JsError.ModuleNotFound := by
  unfold resolve_module
  cases onl with
  | none =>
      cases osl with
      | none => rfl
      | some sl => simp [hs sl rfl]
  | some nl =>
      simp [hn nl rfl]
      cases osl with
      | none => rfl
      | some sl => simp [hs sl rfl]

/-- Witness for claim C3: the doc-test loader declares only my_module,
so importing other_module with no script loader configured fails with
ModuleNotFound. -/
theorem unresolved_import_module_not_found_witness :
    (∀ nl, some myModuleLoader = some nl → nl.has_module "other_module" = false) ∧
    (∀ sl, (none : Option ModuleScriptLoader) = some sl →
        sl "test.es" "other_module" = none) ∧
    resolve_module (some myModuleLoader) none "test.es" "other_module" =
      Except.error JsError.ModuleNotFound := by
  refine ⟨?_, ?_, ?_⟩
  · intro nl h
    cases h
    rfl
  · intro sl h
    cases h
  · exact unresolved_import_module_not_found (some myModuleLoader) none "test.es"
      "other_module" (fun nl h => by cases h; rfl) (fun sl h => by cases h)

/-- Claim C4: after installing a proxy class into a realm, a script-side
static method call dispatches to the registered native callback and
returns exactly its result. -/
theorem proxy_static_call_returns_callback (r : Realm) (p : ProxyDef)
    (method : String) (cb : NativeCallback) (args : List JsPrimitive)
    (h : p.static_methods.lookup method = some cb) :
    (r.install p).callStatic p.name method args = cb args := by
  simp [Realm.install, Realm.callStatic, List.find?, ProxyDef.callStatic, h]

/-- Witness for claim C4: installing SomeClass whose doIt callback
returns 185 makes the script-side static call SomeClass.doIt() return
exactly 185. -/
theorem proxy_static_call_returns_callback_witness :
    someClassProxy.static_methods.lookup "doIt" = some doItCallback ∧
    (Realm.empty.install someClassProxy).callStatic "SomeClass" "doIt" [] =
      Except.ok (JsPrimitive.pNum 185) := by
  refine ⟨rfl, ?_⟩
  have h := proxy_static_call_returns_callback Realm.empty someClassProxy "doIt"
    doItCallback [] rfl
  simpa [someClassProxy, doItCallback] using h

/-- Claim C5: with the doc-test provider whose read() yields the bytes
of Hello world on the first call and None on the second, a script
fetch resolves and text() on the resolved response replays exactly the
buffered string Hello world. -/
theorem fetch_text_hello_world :
    Except.map JsFetchResponse.text
      (scriptFetch (EsRuntimeBuilder.new.fetch_response_provider simpleProvider) 2
        (FetchRequest.mk "something")) = Except.ok "Hello world" := rfl

/-- Claim C6: for every builder whose fetch provider option is still
None (fetch_response_provider was never called), any script fetch call
fails with FeatureUnavailable. -/
theorem fetch_without_provider_feature_unavailable (b : EsRuntimeBuilder)
    (h : b.opt_fetch_response_provider = none) (fuel : Nat) (req : FetchRequest) :
    scriptFetch b fuel req = Except.error JsError.FeatureUnavailable := by
  simp [scriptFetch, h]

/-- Witness for claim C6: a freshly built runtime has no provider and
fetch of x fails with FeatureUnavailable. -/
theorem fetch_without_provider_feature_unavailable_witness :
    EsRuntimeBuilder.new.opt_fetch_response_provider = none ∧
    scriptFetch EsRuntimeBuilder.new 1 (FetchRequest.mk "x") =
      Except.error JsError.FeatureUnavailable :=
  ⟨rfl, fetch_without_provider_feature_unavailable EsRuntimeBuilder.new rfl 1
    (FetchRequest.mk "x")⟩

/-- Claim C7: converting a primitive worker-side value to a Value
Facade copies it, and converting back (in any realm) reproduces the
original value exactly: the round-trip is the identity on primitives. -/
theorem primitive_facade_roundtrip (p : JsPrimitive) (realm : Nat) :
    to_facade (WorkerValue.prim p) = ValueFacade.prim p ∧
    facade_to_worker realm (to_facade (WorkerValue.prim p)) =
      Except.ok (WorkerValue.prim p) :=
  ⟨rfl, rfl⟩

/-- Claim C8: build consumes the builder into the runtime handle — the
configuration of the built runtime is exactly the builder value, with
an empty job queue — and every modelled operation on the runtime handle
(submitting a job, the worker running the next job) leaves that
configuration unchanged. -/
theorem build_config_immutable (b : EsRuntimeBuilder) (rt : EsRuntime) (j : Job) :
    b.build.config = b ∧ b.build.jobQueue = [] ∧
    (rt.submit j).config = rt.config ∧
    rt.runNextJob.fst.config = rt.config := by
  refine ⟨rfl, rfl, rfl, ?_⟩
  cases rt with
  | mk cfg q => cases q <;> rfl

/-- Claim C9: each of the seven builder setters sets exactly its own
option field to Some of its argument and leaves the other six fields
unchanged, and calling a setter again overwrites only that field with
the new value. -/
theorem builder_setters_frame (b : EsRuntimeBuilder) (msl msl2 : ModuleScriptLoader)
    (nml : NativeModuleLoader) (frp : FetchResponseProvider)
    (bytes bytes2 gcsize stack : Nat) (interval : Duration) :
    b.module_script_loader msl = { b with opt_module_script_loader := some msl } ∧
    b.native_module_loader nml = { b with opt_native_module_loader := some nml } ∧
    b.fetch_response_provider frp = { b with opt_fetch_response_provider := some frp } ∧
    b.memory_limit bytes = { b with opt_memory_limit_bytes := some bytes } ∧
    b.gc_threshold gcsize = { b with opt_gc_threshold := some gcsize } ∧
    b.max_stack_size stack = { b with opt_max_stack_size := some stack } ∧
    b.gc_interval interval = { b with opt_gc_interval := some interval } ∧
    (b.module_script_loader msl).module_script_loader msl2 =
      { b with opt_module_script_loader := some msl2 } ∧
    (b.memory_limit bytes).memory_limit bytes2 =
      { b with opt_memory_limit_bytes := some bytes2 } :=
  ⟨rfl, rfl, rfl, rfl, rfl, rfl, rfl, rfl, rfl⟩

/-- Claim C10: new_null is null and not undefined, new_undefined is
undefined and not null, and is_null_or_undefined holds exactly when
is_null or is_undefined holds. -/
theorem null_undefined_predicates :
    is_null new_null = true ∧ is_undefined new_null = false ∧
    is_undefined new_undefined = true ∧ is_null new_undefined = false ∧
    ∀ v : OwnedValueRef,
      is_null_or_undefined v = true ↔ (is_null v = true ∨ is_undefined v = true) := by
  refine ⟨rfl, rfl, rfl, rfl, ?_⟩
  intro v
  simp [is_null_or_undefined]

end QjsSpec
